import Mathlib

/-
Verification of the travel-agent orchestration core
(src/agents/agent.py, src/agents/tools/flights_searcher.py,
src/agents/tools/hotels_searcher.py) via a shallow embedding.

Python values, exceptions and the serpapi/environment world are made
explicit; each Lean definition below mirrors one Python definition of
the repository.
-/

/-- Python runtime values as they flow through the agent: None, strings,
integers, lists and dicts. -/
inductive PyValue where
  | none
  | str (s : String)
  | int (n : Int)
  | list (xs : List PyValue)
  | dict (kvs : List (String × PyValue))

mutual

/-- Python repr of a value (used inside containers by str()). -/
def pyRepr : PyValue → String
  | PyValue.none => "None"
  | PyValue.str s => "\x27" ++ s ++ "\x27"
  | PyValue.int n => toString n
  | PyValue.list xs => "[" ++ pyReprList xs ++ "]"
  | PyValue.dict kvs => "\x7b" ++ pyReprDict kvs ++ "\x7d"

/-- repr of the elements of a Python list, comma separated. -/
def pyReprList : List PyValue → String
  | [] => ""
  | [x] => pyRepr x
  | x :: xs => pyRepr x ++ ", " ++ pyReprList xs

/-- repr of the entries of a Python dict, comma separated. -/
def pyReprDict : List (String × PyValue) → String
  | [] => ""
  | [(k, v)] => "\x27" ++ k ++ "\x27: " ++ pyRepr v
  | (k, v) :: xs => "\x27" ++ k ++ "\x27: " ++ pyRepr v ++ ", " ++ pyReprDict xs

end

/-- Python str() of a value; `str(None) = "None"`, strings print bare. -/
def pyStr : PyValue → String
  | PyValue.str s => s
  | v => pyRepr v

/-- A raised Python exception: its class name and its message
(`str(e)` prints the message). -/
structure PyErr where
  kind : String
  msg : String

/-- Python `str(e)` on an exception: the message. -/
def pyErrStr (e : PyErr) : String := e.msg

/-- An untyped keyword-argument mapping, as the model produces for a tool
call and as `serpapi.search` receives. -/
def ArgMap : Type := List (String × PyValue)

/-- Dict lookup by key (first binding wins, as in a Python dict literal). -/
def lookupArg (args : ArgMap) (k : String) : Option PyValue :=
  (args.find? (fun kv => kv.fst == k)).map (fun kv => kv.snd)

/-- Python subscript `v[k]` with a string key: KeyError when the key is
missing, TypeError when `v` is not a dict. -/
def pySubscript (v : PyValue) (k : String) : Except PyErr PyValue :=
  match v with
  | PyValue.dict kvs =>
    match (kvs.find? (fun kv => kv.fst == k)).map (fun kv => kv.snd) with
    | some x => Except.ok x
    | Option.none => Except.error ⟨"KeyError", "\x27" ++ k ++ "\x27"⟩
  | _ => Except.error ⟨"TypeError", "object is not subscriptable"⟩

/-- Python slice `v[:5]`: the first five elements of a list (or characters
of a string); TypeError on anything unsliceable. -/
def pySliceTake5 (v : PyValue) : Except PyErr PyValue :=
  match v with
  | PyValue.list xs => Except.ok (PyValue.list (xs.take 5))
  | PyValue.str s => Except.ok (PyValue.str (String.mk (s.data.take 5)))
  | _ => Except.error ⟨"TypeError", "object is not subscriptable"⟩

/-- Python `v.get(k, default)` on a dict; AttributeError when `v` is not
a dict. -/
def pyGet (v : PyValue) (k : String) (default : PyValue) : Except PyErr PyValue :=
  match v with
  | PyValue.dict kvs =>
    Except.ok (((kvs.find? (fun kv => kv.fst == k)).map (fun kv => kv.snd)).getD default)
  | _ => Except.error ⟨"AttributeError", "get"⟩

/-- The external world both tools close over: the `serpapi.search` call
(returning the response data or raising) and `os.environ.get` for the
SERPAPI API key. -/
structure World where
  serp : ArgMap → Except PyErr PyValue
  envApiKey : Option String

/-- `os.environ.get` result as the Python value placed in search params. -/
def optStrToPy : Option String → PyValue
  | some s => PyValue.str s
  | Option.none => PyValue.none

/-- A pydantic-v1 validation error for one field. -/
def validationErr (field : String) (desc : String) : PyErr :=
  ⟨"ValidationError", field ++ ": " ++ desc⟩

/-- Validation of an `Optional[str]` pydantic-v1 field: missing uses the
default unvalidated, None is allowed, ints coerce to str. -/
def validateOptStr (args : ArgMap) (name : String) (default : PyValue) :
    Except PyErr PyValue :=
  match lookupArg args name with
  | Option.none => Except.ok default
  | some PyValue.none => Except.ok PyValue.none
  | some (PyValue.str s) => Except.ok (PyValue.str s)
  | some (PyValue.int n) => Except.ok (PyValue.str (toString n))
  | some _ => Except.error (validationErr name "str type expected")

/-- Validation of a required `str` pydantic-v1 field. -/
def validateReqStr (args : ArgMap) (name : String) : Except PyErr PyValue :=
  match lookupArg args name with
  | Option.none => Except.error (validationErr name "field required")
  | some PyValue.none => Except.error (validationErr name "none is not an allowed value")
  | some (PyValue.str s) => Except.ok (PyValue.str s)
  | some (PyValue.int n) => Except.ok (PyValue.str (toString n))
  | some _ => Except.error (validationErr name "str type expected")

/-- Validation of an `Optional[int]` pydantic-v1 field: missing uses the
default, None is allowed, numeric strings coerce to int. -/
def validateOptInt (args : ArgMap) (name : String) (default : PyValue) :
    Except PyErr PyValue :=
  match lookupArg args name with
  | Option.none => Except.ok default
  | some PyValue.none => Except.ok PyValue.none
  | some (PyValue.int n) => Except.ok (PyValue.int n)
  | some (PyValue.str s) =>
    match s.toInt? with
    | some n => Except.ok (PyValue.int n)
    | Option.none => Except.error (validationErr name "value is not a valid integer")
  | some _ => Except.error (validationErr name "value is not a valid integer")

/-- `FlightsInput` (src/agents/tools/flights_searcher.py): the declared
pydantic fields of the flight-search schema.  Note the last field is
named `types`, not `type`. -/
structure FlightsInput where
  departure_id : PyValue
  arrival_id : PyValue
  outbound_date : PyValue
  return_date : PyValue
  adults : PyValue
  children : PyValue
  infants_in_seat : PyValue
  infants_on_lap : PyValue
  types : PyValue

/-- Python attribute access on a `FlightsInput` instance: only the nine
declared fields exist; any other attribute raises AttributeError. -/
def FlightsInput.getattr (p : FlightsInput) (a : String) : Except PyErr PyValue :=
  if a = "departure_id" then Except.ok p.departure_id
  else if a = "arrival_id" then Except.ok p.arrival_id
  else if a = "outbound_date" then Except.ok p.outbound_date
  else if a = "return_date" then Except.ok p.return_date
  else if a = "adults" then Except.ok p.adults
  else if a = "children" then Except.ok p.children
  else if a = "infants_in_seat" then Except.ok p.infants_in_seat
  else if a = "infants_on_lap" then Except.ok p.infants_on_lap
  else if a = "types" then Except.ok p.types
  else Except.error ⟨"AttributeError",
    "\x27FlightsInput\x27 object has no attribute \x27" ++ a ++ "\x27"⟩

/-- `FlightsInput(**args)`: pydantic-v1 validation of the flight schema.
All fields are Optional; `adults` defaults to 1, the infant/child counts
to 0, `types` to 1; a field with no declared default gets None. -/
def FlightsInput.validate (args : ArgMap) : Except PyErr FlightsInput := do
  let departure_id ← validateOptStr args "departure_id" PyValue.none
  let arrival_id ← validateOptStr args "arrival_id" PyValue.none
  let outbound_date ← validateOptStr args "outbound_date" PyValue.none
  let return_date ← validateOptStr args "return_date" PyValue.none
  let adults ← validateOptInt args "adults" (PyValue.int 1)
  let children ← validateOptInt args "children" (PyValue.int 0)
  let infants_in_seat ← validateOptInt args "infants_in_seat" (PyValue.int 0)
  let infants_on_lap ← validateOptInt args "infants_on_lap" (PyValue.int 0)
  let types ← validateOptInt args "types" (PyValue.int 1)
  pure ⟨departure_id, arrival_id, outbound_date, return_date, adults,
        children, infants_in_seat, infants_on_lap, types⟩

/-- The search-parameter dict built by `flights_searcher` before its try
block; the last entry reads `params.type`, an attribute the schema never
declares, so building it raises. -/
def flightsSearchParams (w : World) (params : FlightsInput) :
    Except PyErr ArgMap := do
  let typ ← params.getattr "type"
  pure [("api_key", optStrToPy w.envApiKey),
        ("engine", PyValue.str "google_flights"),
        ("hl", PyValue.str "en"), ("gl", PyValue.str "us"),
        ("departure_id", params.departure_id),
        ("arrival_id", params.arrival_id),
        ("outbound_date", params.outbound_date),
        ("return_date", params.return_date),
        ("currency", PyValue.str "USD"),
        ("adults", params.adults),
        ("infants_in_seat", params.infants_in_seat),
        ("stops", PyValue.str "1"),
        ("infants_on_lap", params.infants_on_lap),
        ("children", params.children),
        ("type", typ)]

/-- The body of `flights_searcher`'s try block: call serpapi and read
`best_flights` from the response with a fallback message. -/
def flightsTryExec (w : World) (sp : ArgMap) : Except PyErr PyValue := do
  let data ← w.serp sp
  pyGet data "best_flights" (PyValue.str "No flights found.")

/-- `flights_searcher`'s try/except around the search: any exception is
printed and swallowed, falling through to an implicit `return None`. -/
def flightsAfterTry (w : World) (sp : ArgMap) : PyValue :=
  match flightsTryExec w sp with
  | Except.ok v => v
  | Except.error _e => PyValue.none

/-- `flights_searcher` (src/agents/tools/flights_searcher.py): builds the
search params (which reads the undeclared `params.type` and therefore
raises, propagating out, before the try block and before any network
call), then would run the guarded search. -/
def flights_searcher (w : World) (params : FlightsInput) : Except PyErr PyValue := do
  let sp ← flightsSearchParams w params
  pure (flightsAfterTry w sp)

/-- `HotelsInput` (src/agents/tools/hotels_searcher.py): the declared
pydantic fields of the hotel-search schema. -/
structure HotelsInput where
  q : PyValue
  check_in_date : PyValue
  check_out_date : PyValue
  sort_by : PyValue
  adults : PyValue
  children : PyValue
  rooms : PyValue
  hotel_class : PyValue

/-- `HotelsInput(**args)`: pydantic-v1 validation of the hotel schema.
`q` and the two dates are required; `sort_by` has the unvalidated default
`8` (an int, as written `Field(8, ...)`), `adults`/`rooms` default 1,
`children` 0, `hotel_class` None. -/
def HotelsInput.validate (args : ArgMap) : Except PyErr HotelsInput := do
  let q ← validateReqStr args "q"
  let check_in_date ← validateReqStr args "check_in_date"
  let check_out_date ← validateReqStr args "check_out_date"
  let sort_by ← validateOptStr args "sort_by" (PyValue.int 8)
  let adults ← validateOptInt args "adults" (PyValue.int 1)
  let children ← validateOptInt args "children" (PyValue.int 0)
  let rooms ← validateOptInt args "rooms" (PyValue.int 1)
  let hotel_class ← validateOptStr args "hotel_class" PyValue.none
  pure ⟨q, check_in_date, check_out_date, sort_by, adults, children, rooms,
        hotel_class⟩

/-- The search-parameter dict built by `hotels_searcher` (all entries are
plain field reads, none can raise). -/
def hotelsSearchParams (w : World) (params : HotelsInput) : ArgMap :=
  [("api_key", optStrToPy w.envApiKey),
   ("engine", PyValue.str "google_hotels"),
   ("hl", PyValue.str "en"), ("gl", PyValue.str "us"),
   ("q", params.q),
   ("check_in_date", params.check_in_date),
   ("check_out_date", params.check_out_date),
   ("currency", PyValue.str "USD"),
   ("adults", params.adults),
   ("children", params.children),
   ("rooms", params.rooms),
   ("sort_by", params.sort_by),
   ("hotel_class", params.hotel_class)]

/-- The body of `hotels_searcher`'s try block: call serpapi, index the
response at `"properties"`, slice the first five. -/
def hotelsTry (w : World) (sp : ArgMap) : Except PyErr PyValue := do
  let data ← w.serp sp
  let props ← pySubscript data "properties"
  pySliceTake5 props

/-- `hotels_searcher` (src/agents/tools/hotels_searcher.py): runs the
guarded search; any exception is printed and swallowed, falling through
to an implicit `return None`. -/
def hotels_searcher (w : World) (params : HotelsInput) : PyValue :=
  match hotelsTry w (hotelsSearchParams w params) with
  | Except.ok v => v
  | Except.error _e => PyValue.none

/-- A tool-call request emitted inside an assistant message: identifier,
tool name, raw argument mapping. -/
structure ToolCall where
  id : String
  name : String
  args : ArgMap

/-- The variants of a LangChain message as the agent uses them. -/
inductive MsgBody where
  | system (content : String)
  | human (content : String)
  | ai (content : String) (tool_calls : List ToolCall)
  | toolResult (tool_call_id : String) (content : String)

/-- A message: an optional identifier (messages created without one get a
fresh UUID inside `add_messages`) and its body. -/
structure Message where
  id : Option String
  body : MsgBody

/-- SystemMessage(content=...) with no explicit id. -/
def systemMessage (content : String) : Message :=
  ⟨Option.none, MsgBody.system content⟩

/-- HumanMessage(content=...) with no explicit id. -/
def humanMessage (content : String) : Message :=
  ⟨Option.none, MsgBody.human content⟩

/-- ToolMessage(tool_call_id=..., content=...) as `tool_executor` builds
it: no explicit id. -/
def mkToolMessage (tool_call_id : String) (content : String) : Message :=
  ⟨Option.none, MsgBody.toolResult tool_call_id content⟩

/-- The parsed arguments object handed to a tool function: one of the two
schema instances. -/
inductive Parsed where
  | flights (p : FlightsInput)
  | hotels (p : HotelsInput)

/-- A registered tool as the executor sees it: its name, its
`args_schema` constructor, and its `.func`. -/
structure ToolDef where
  name : String
  argsSchema : ArgMap → Except PyErr Parsed
  func : World → Parsed → Except PyErr PyValue

/-- The flights tool entry: name from the decorated function, schema
`FlightsInput`, function `flights_searcher`. -/
def flightsTool : ToolDef :=
  ⟨"flights_searcher",
   fun a => (FlightsInput.validate a).map Parsed.flights,
   fun w pa =>
     match pa with
     | Parsed.flights p => flights_searcher w p
     | _ => Except.error ⟨"TypeError", "wrong schema instance"⟩⟩

/-- The hotels tool entry: name from the decorated function, schema
`HotelsInput`, function `hotels_searcher` (which never raises: its whole
search is inside its own try/except). -/
def hotelsTool : ToolDef :=
  ⟨"hotels_searcher",
   fun a => (HotelsInput.validate a).map Parsed.hotels,
   fun w pa =>
     match pa with
     | Parsed.hotels p => Except.ok (hotels_searcher w p)
     | _ => Except.error ⟨"TypeError", "wrong schema instance"⟩⟩

/-- `self.tools = [flights_searcher, hotels_searcher]` set in
`Agent.__init__`. -/
def agentTools : List ToolDef := [flightsTool, hotelsTool]

/-- The try/except body of `Agent.tool_executor` for one resolved tool:
validate the raw args, call the function, stringify the result; any
exception from either phase becomes content `"Tool error: " + str(e)`. -/
def processTool (w : World) (t : ToolDef) (tc : ToolCall) : Message :=
  match t.argsSchema tc.args with
  | Except.error e => mkToolMessage tc.id ("Tool error: " ++ pyErrStr e)
  | Except.ok parsed_args =>
    match t.func w parsed_args with
    | Except.error e => mkToolMessage tc.id ("Tool error: " ++ pyErrStr e)
    | Except.ok result => mkToolMessage tc.id (pyStr result)

/-- One iteration of the `for tool_call in ...` loop of
`Agent.tool_executor`: resolve the name against the registry
(`next((t for t in self.tools if t.name == tool_call["name"]), None)`);
when no tool matches, the `if tool_obj:` guard fails and nothing is
appended for this request. -/
def runToolCall (w : World) (tc : ToolCall) : Option Message :=
  match agentTools.find? (fun t => t.name == tc.name) with
  | Option.none => Option.none
  | some tool_obj => some (processTool w tool_obj tc)

/-- `getattr(message, "tool_calls", default-empty)`: AI messages carry
their tool_calls list, every other message kind yields the default. -/
def toolCallsOf (m : Message) : List ToolCall :=
  match m.body with
  | MsgBody.ai _ calls => calls
  | _ => []

/-- The loop of `Agent.tool_executor` over the tool calls of the last
message, collecting the conditionally-appended ToolMessages. -/
def execCalls (w : World) (calls : List ToolCall) : List Message :=
  calls.filterMap (runToolCall w)

/-- `Agent.tool_executor` (src/agents/agent.py): reads
`state["messages"][-1]` and emits the new ToolMessages.  (On an empty
state Python would raise IndexError; the graph never calls the node with
an empty state.) -/
def tool_executor (w : World) (msgs : List Message) : List Message :=
  match msgs.getLast? with
  | Option.none => []
  | some last_message => execCalls w (toolCallsOf last_message)

/-- What `self.llm.invoke` returns: an AI message, i.e. an id, content,
and a list of tool calls. -/
structure LLMReply where
  id : Option String
  content : String
  tool_calls : List ToolCall

/-- The AI message built from an LLM reply. -/
def aiOf (r : LLMReply) : Message := ⟨r.id, MsgBody.ai r.content r.tool_calls⟩

/-- `Agent.handle_conversation_flow` (src/agents/agent.py): prepend a
fresh SystemMessage to the stored messages, invoke the LLM on that
transient list, and return only the LLM reply for merging. -/
def handle_conversation_flow (llm : List Message → LLMReply) (sys : String)
    (msgs : List Message) : List Message :=
  [aiOf (llm (systemMessage sys :: msgs))]

/-- Id comparison used by langgraph's `add_messages` after it has
assigned fresh UUIDs to messages lacking one: a message without an
explicit id never collides. -/
def msgIdEq (a b : Option String) : Bool :=
  match a, b with
  | some x, some y => x == y
  | _, _ => false

/-- Merging one new message into the accumulated list, as langgraph's
`add_messages` reducer does: replace in place on id match, else append. -/
def addOne (acc : List Message) (m : Message) : List Message :=
  if acc.any (fun e => msgIdEq e.id m.id)
  then acc.map (fun e => if msgIdEq e.id m.id then m else e)
  else acc ++ [m]

/-- The `add_messages` reducer declared on `State.messages`. -/
def addMessages (existing new : List Message) : List Message :=
  new.foldl addOne existing

/-- The conditional edge of `Agent.graph_builder`:
`getattr(state["messages"][-1], "tool_calls", None)` truthiness decides
between the tool executor and END. -/
def shouldAct (msgs : List Message) : Bool :=
  match msgs.getLast? with
  | some m => !(toolCallsOf m).isEmpty
  | Option.none => false

/-- The outcome of one compiled-graph invocation: the final state, the
list of inputs each LLM call received, and the state snapshots after each
node's messages were merged. -/
structure RunResult where
  final : List Message
  llmInputs : List (List Message)
  states : List (List Message)

/-- The compiled graph of `Agent.graph_builder`: enter at
`handle_conversation_flow`, follow the conditional edge to
`tool_executor` or END, loop back from the executor.  `fuel` bounds the
iterations (langgraph's recursion limit). -/
def runAgent (llm : List Message → LLMReply) (w : World) (sys : String) :
    Nat → List Message → RunResult
  | 0, msgs => ⟨msgs, [], []⟩
  | fuel + 1, msgs =>
    let newMsgs := handle_conversation_flow llm sys msgs
    let msgs1 := addMessages msgs newMsgs
    if shouldAct msgs1 then
      let results := tool_executor w msgs1
      let msgs2 := addMessages msgs1 results
      let rest := runAgent llm w sys fuel msgs2
      ⟨rest.final, (systemMessage sys :: msgs) :: rest.llmInputs,
       msgs1 :: msgs2 :: rest.states⟩
    else
      ⟨msgs1, [systemMessage sys :: msgs], [msgs1]⟩

/-- A world whose search call always raises and whose API key is unset,
for concrete evaluations. -/
def w0 : World :=
  ⟨fun _ => Except.error ⟨"RuntimeError", "network unreachable"⟩, Option.none⟩

/-- Whether a tool name resolves against the agent's registry. -/
def registered (n : String) : Bool := agentTools.any (fun t => t.name == n)

/-- The identifier a ToolMessage is tagged with. -/
def msgTag (m : Message) : String :=
  match m.body with
  | MsgBody.toolResult i _ => i
  | _ => ""

theorem msgIdEq_none_right (a : Option String) : msgIdEq a Option.none = false := by
  cases a <;> rfl

theorem processTool_shape (w : World) (t : ToolDef) (tc : ToolCall) :
    ∃ c, processTool w t tc = mkToolMessage tc.id c := by
  cases hs : t.argsSchema tc.args with
  | error e => exact ⟨"Tool error: " ++ pyErrStr e, by simp [processTool, hs]⟩
  | ok p =>
    cases hf2 : t.func w p with
    | error e => exact ⟨"Tool error: " ++ pyErrStr e, by simp [processTool, hs, hf2]⟩
    | ok v => exact ⟨pyStr v, by simp [processTool, hs, hf2]⟩

theorem execCalls_tags (w : World) (calls : List ToolCall) :
    (execCalls w calls).map msgTag
      = (calls.filter (fun tc => registered tc.name)).map ToolCall.id := by
  induction calls with
  | nil => rfl
  | cons tc tl ih =>
    cases hf : agentTools.find? (fun t => t.name == tc.name) with
    | none =>
      have hreg : registered tc.name = false := by
        rw [registered, List.any_eq_false]
        intro t ht
        simpa using List.find?_eq_none.mp hf t ht
      simp only [execCalls, List.filterMap_cons, runToolCall, hf] at *
      simpa [List.filter_cons, hreg] using ih
    | some t =>
      have hreg : registered tc.name = true := by
        rw [registered, List.any_eq_true]
        have hp := List.find?_some hf
        exact ⟨t, List.mem_of_find?_eq_some hf, by simpa using hp⟩
      obtain ⟨c, hc⟩ := processTool_shape w t tc
      simp only [execCalls, List.filterMap_cons, runToolCall, hf] at *
      simp [List.filter_cons, hreg, hc, msgTag, mkToolMessage, ih]

theorem tool_executor_on_ai (w : World) (pre : List Message)
    (mid : Option String) (content : String) (calls : List ToolCall) :
    tool_executor w (pre ++ [⟨mid, MsgBody.ai content calls⟩]) = execCalls w calls := by
  have hlast : (pre ++ [(⟨mid, MsgBody.ai content calls⟩ : Message)]).getLast?
      = some ⟨mid, MsgBody.ai content calls⟩ := by simp
  rw [tool_executor, hlast]
  rfl

/-- C1: as stated the claim is false: a batch consisting of one request
whose tool name is not registered yields zero results, not one — the
`if tool_obj:` guard drops it silently. -/
theorem c1_unknown_tool_dropped_cx :
    (toolCallsOf ⟨some "a1", MsgBody.ai "" [⟨"call_1", "weather_tool", []⟩]⟩).length = 1 ∧
    tool_executor w0 [⟨some "a1", MsgBody.ai "" [⟨"call_1", "weather_tool", []⟩]⟩] = [] :=
  ⟨rfl, rfl⟩

/-- C1 (amended): for an assistant message carrying any batch of tool-call
requests, the executor returns exactly one ToolResult per request whose
tool name is registered, in request order, each tagged with that
request's identifier; requests with unregistered names contribute no
result. -/
theorem c1_one_result_per_registered_request (w : World) (pre : List Message)
    (mid : Option String) (content : String) (calls : List ToolCall) :
    (tool_executor w (pre ++ [⟨mid, MsgBody.ai content calls⟩])).map msgTag
      = (calls.filter (fun tc => registered tc.name)).map ToolCall.id ∧
    (tool_executor w (pre ++ [⟨mid, MsgBody.ai content calls⟩])).length
      = (calls.filter (fun tc => registered tc.name)).length := by
  rw [tool_executor_on_ai]
  refine ⟨execCalls_tags w calls, ?_⟩
  calc (execCalls w calls).length
      = ((execCalls w calls).map msgTag).length := (List.length_map _ _).symm
    _ = ((calls.filter (fun tc => registered tc.name)).map ToolCall.id).length := by
        rw [execCalls_tags]
    _ = (calls.filter (fun tc => registered tc.name)).length := List.length_map _ _

/-- C2: as stated the claim is false: in a batch holding an unknown-name
request (id `call_7`) and a flights request (id `call_8`), the executor
emits only the single flights result; no Error message tagged `call_7`
exists. -/
theorem c2_no_error_for_unknown_cx :
    (toolCallsOf ⟨some "a2", MsgBody.ai ""
        [⟨"call_7", "teleport", []⟩, ⟨"call_8", "flights_searcher", []⟩]⟩).length = 2 ∧
    tool_executor w0 [⟨some "a2", MsgBody.ai ""
        [⟨"call_7", "teleport", []⟩, ⟨"call_8", "flights_searcher", []⟩]⟩]
      = [⟨Option.none, MsgBody.toolResult "call_8"
          "Tool error: \x27FlightsInput\x27 object has no attribute \x27type\x27"⟩] :=
  ⟨rfl, rfl⟩

/-- C2 (amended): a tool-call request whose name matches no registered
tool is silently skipped: the executor emits no ToolResult for it at all
(and, being a total function, never throws out of the batch). -/
theorem c2_unknown_tool_silently_skipped (w : World) (pre : List Message)
    (mid : Option String) (content : String) (tc : ToolCall)
    (h : agentTools.all (fun t => !(t.name == tc.name)) = true) :
    tool_executor w (pre ++ [⟨mid, MsgBody.ai content [tc]⟩]) = [] := by
  rw [tool_executor_on_ai]
  have hf : agentTools.find? (fun t => t.name == tc.name) = Option.none := by
    rw [List.find?_eq_none]
    intro t ht
    have := List.all_eq_true.mp h t ht
    simp at this
    simp [this]
  simp [execCalls, List.filterMap_cons, runToolCall, hf]

/-- C2 witness: a concrete unknown-name request is skipped. -/
theorem c2_unknown_tool_silently_skipped_witness :
    tool_executor w0 [⟨some "a3", MsgBody.ai "" [⟨"call_9", "teleport", []⟩]⟩] = [] :=
  c2_unknown_tool_silently_skipped w0 [] (some "a3") "" ⟨"call_9", "teleport", []⟩ rfl

theorem except_bind_error {A B : Type} (e : PyErr) (f : A → Except PyErr B) :
    (Except.error e >>= f) = Except.error e := rfl

theorem except_bind_ok {A B : Type} (a : A) (f : A → Except PyErr B) :
    (Except.ok a >>= f) = f a := rfl

/-- The exception every `flights_searcher` call raises while building its
search params: the schema declares `types` but the code reads `type`. -/
def flightsTypeError : PyErr :=
  ⟨"AttributeError", "\x27FlightsInput\x27 object has no attribute \x27type\x27"⟩

/-- C3: every schema-accepted input makes `flights_searcher` raise the
`type` AttributeError before any network call (the result is the same
error for every world, so the service is never contacted), the executor
converts it into a ToolMessage whose content extends the prefix
"Tool error:", and the success branch is unreachable. -/
theorem c3_flights_reads_undeclared_type (w : World) (cid : String)
    (args : ArgMap) (p : FlightsInput)
    (h : FlightsInput.validate args = Except.ok p) :
    flights_searcher w p = Except.error flightsTypeError ∧
    runToolCall w ⟨cid, "flights_searcher", args⟩
      = some (mkToolMessage cid ("Tool error: " ++ pyErrStr flightsTypeError)) ∧
    (∃ rest, "Tool error: " ++ pyErrStr flightsTypeError = "Tool error:" ++ rest) := by
  have hraise : flights_searcher w p = Except.error flightsTypeError := rfl
  have key : runToolCall w ⟨cid, "flights_searcher", args⟩
      = some (processTool w flightsTool ⟨cid, "flights_searcher", args⟩) := rfl
  refine ⟨hraise, ?_, ⟨" " ++ pyErrStr flightsTypeError, by
    rw [← String.append_assoc,
        show ("Tool error:" ++ " " : String) = "Tool error: " from rfl]⟩⟩
  rw [key]
  simp [processTool, flightsTool, h, Except.map, hraise]

/-- The `FlightsInput` instance produced by validating an empty argument
mapping: every field takes its declared default. -/
def flightsDefaults : FlightsInput :=
  ⟨PyValue.none, PyValue.none, PyValue.none, PyValue.none, PyValue.int 1,
   PyValue.int 0, PyValue.int 0, PyValue.int 0, PyValue.int 1⟩

/-- C3 witness: the empty argument mapping is accepted by the schema and
the flights tool still fails with the `type` AttributeError. -/
theorem c3_flights_reads_undeclared_type_witness :
    FlightsInput.validate [] = Except.ok flightsDefaults ∧
    (flights_searcher w0 flightsDefaults = Except.error flightsTypeError ∧
     runToolCall w0 ⟨"call_3", "flights_searcher", []⟩
       = some (mkToolMessage "call_3" ("Tool error: " ++ pyErrStr flightsTypeError)) ∧
     (∃ rest, "Tool error: " ++ pyErrStr flightsTypeError = "Tool error:" ++ rest)) :=
  ⟨rfl, c3_flights_reads_undeclared_type w0 "call_3" [] flightsDefaults rfl⟩

/-- C5: a hotel request whose arguments fail schema validation yields a
ToolMessage reading "Tool error: ..." while one whose search call fails
at the external service yields the ToolMessage "None", and those two
contents are never equal, so the two kinds of failure are always
distinguishable in the executor's output. -/
theorem c5_validation_vs_service_failure (w1 w2 : World) (cid1 cid2 : String)
    (args1 args2 : ArgMap) (e : PyErr) (p : HotelsInput) (sperr : PyErr)
    (h1 : HotelsInput.validate args1 = Except.error e)
    (h2 : HotelsInput.validate args2 = Except.ok p)
    (h3 : w2.serp (hotelsSearchParams w2 p) = Except.error sperr) :
    runToolCall w1 ⟨cid1, "hotels_searcher", args1⟩
      = some (mkToolMessage cid1 ("Tool error: " ++ pyErrStr e)) ∧
    runToolCall w2 ⟨cid2, "hotels_searcher", args2⟩
      = some (mkToolMessage cid2 "None") ∧
    ("Tool error: " ++ pyErrStr e) ≠ "None" := by
  have key1 : runToolCall w1 ⟨cid1, "hotels_searcher", args1⟩
      = some (processTool w1 hotelsTool ⟨cid1, "hotels_searcher", args1⟩) := rfl
  have key2 : runToolCall w2 ⟨cid2, "hotels_searcher", args2⟩
      = some (processTool w2 hotelsTool ⟨cid2, "hotels_searcher", args2⟩) := rfl
  have htry : hotelsTry w2 (hotelsSearchParams w2 p) = Except.error sperr := by
    simp [hotelsTry, h3, except_bind_error]
  have hnone : hotels_searcher w2 p = PyValue.none := by
    simp [hotels_searcher, htry]
  refine ⟨?_, ?_, ?_⟩
  · rw [key1]
    simp [processTool, hotelsTool, h1, Except.map]
  · rw [key2]
    simp [processTool, hotelsTool, h2, Except.map, hnone, pyStr, pyRepr]
  · intro hq
    have hlen := congrArg String.length hq
    have e0 : ("Tool error: " : String).length = 12 := rfl
    have e1 : ("Tool error: " ++ pyErrStr e).length = 12 + (pyErrStr e).length := by
      rw [String.length_append, e0]
    have e2 : ("None" : String).length = 4 := rfl
    rw [e1, e2] at hlen
    omega

/-- A concrete valid hotel argument mapping's parse result. -/
def hotelsParsed0 : HotelsInput :=
  ⟨PyValue.str "NYC", PyValue.str "2025-01-01", PyValue.str "2025-01-05",
   PyValue.int 8, PyValue.int 1, PyValue.int 0, PyValue.int 1, PyValue.none⟩

/-- C5 witness: missing `q` fails validation with one content, a raising
search yields the other, and they differ. -/
theorem c5_validation_vs_service_failure_witness :
    HotelsInput.validate [] = Except.error ⟨"ValidationError", "q: field required"⟩ ∧
    HotelsInput.validate [("q", PyValue.str "NYC"),
      ("check_in_date", PyValue.str "2025-01-01"),
      ("check_out_date", PyValue.str "2025-01-05")] = Except.ok hotelsParsed0 ∧
    w0.serp (hotelsSearchParams w0 hotelsParsed0)
      = Except.error ⟨"RuntimeError", "network unreachable"⟩ ∧
    (runToolCall w0 ⟨"call_a", "hotels_searcher", []⟩
      = some (mkToolMessage "call_a"
          ("Tool error: " ++ pyErrStr ⟨"ValidationError", "q: field required"⟩)) ∧
     runToolCall w0 ⟨"call_b", "hotels_searcher", [("q", PyValue.str "NYC"),
      ("check_in_date", PyValue.str "2025-01-01"),
      ("check_out_date", PyValue.str "2025-01-05")]⟩
      = some (mkToolMessage "call_b" "None") ∧
     ("Tool error: " ++ pyErrStr ⟨"ValidationError", "q: field required"⟩) ≠ "None") :=
  ⟨rfl, rfl, rfl,
   c5_validation_vs_service_failure w0 w0 "call_a" "call_b" []
     [("q", PyValue.str "NYC"), ("check_in_date", PyValue.str "2025-01-01"),
      ("check_out_date", PyValue.str "2025-01-05")]
     ⟨"ValidationError", "q: field required"⟩ hotelsParsed0
     ⟨"RuntimeError", "network unreachable"⟩ rfl rfl rfl⟩

/-- C7: a request resolving to a registered tool always produces exactly
one ToolMessage tagged with the request's identifier — whether validation
raised, the tool function raised, or the call succeeded — so no exception
escapes the executor. -/
theorem c7_registered_tool_errors_recovered (w : World) (tc : ToolCall)
    (t : ToolDef)
    (hfind : agentTools.find? (fun t2 => t2.name == tc.name) = some t) :
    ∃ m, runToolCall w tc = some m ∧ m.id = Option.none ∧
      ∃ c, m.body = MsgBody.toolResult tc.id c ∧
        ((∃ e, t.argsSchema tc.args = Except.error e ∧
            c = "Tool error: " ++ pyErrStr e) ∨
         (∃ p e, t.argsSchema tc.args = Except.ok p ∧ t.func w p = Except.error e ∧
            c = "Tool error: " ++ pyErrStr e) ∨
         (∃ p v, t.argsSchema tc.args = Except.ok p ∧ t.func w p = Except.ok v ∧
            c = pyStr v)) := by
  cases hs : t.argsSchema tc.args with
  | error e =>
    exact ⟨mkToolMessage tc.id ("Tool error: " ++ pyErrStr e),
      by simp [runToolCall, hfind, processTool, hs], rfl,
      "Tool error: " ++ pyErrStr e, rfl, Or.inl ⟨e, rfl, rfl⟩⟩
  | ok p =>
    cases hf2 : t.func w p with
    | error e =>
      exact ⟨mkToolMessage tc.id ("Tool error: " ++ pyErrStr e),
        by simp [runToolCall, hfind, processTool, hs, hf2], rfl,
        "Tool error: " ++ pyErrStr e, rfl, Or.inr (Or.inl ⟨p, e, rfl, hf2, rfl⟩)⟩
    | ok v =>
      exact ⟨mkToolMessage tc.id (pyStr v),
        by simp [runToolCall, hfind, processTool, hs, hf2], rfl,
        pyStr v, rfl, Or.inr (Or.inr ⟨p, v, rfl, hf2, rfl⟩)⟩

/-- C7 witness: a concrete hotels request resolves and yields one tagged
ToolMessage. -/
theorem c7_registered_tool_errors_recovered_witness :
    ∃ m, runToolCall w0 ⟨"call_5", "hotels_searcher", []⟩ = some m ∧
      m.id = Option.none ∧
      ∃ c, m.body = MsgBody.toolResult "call_5" c ∧
        ((∃ e, hotelsTool.argsSchema [] = Except.error e ∧
            c = "Tool error: " ++ pyErrStr e) ∨
         (∃ p e, hotelsTool.argsSchema [] = Except.ok p ∧
            hotelsTool.func w0 p = Except.error e ∧
            c = "Tool error: " ++ pyErrStr e) ∨
         (∃ p v, hotelsTool.argsSchema [] = Except.ok p ∧
            hotelsTool.func w0 p = Except.ok v ∧ c = pyStr v)) :=
  c7_registered_tool_errors_recovered w0 ⟨"call_5", "hotels_searcher", []⟩
    hotelsTool rfl

/-- C8: when the external search raises, `hotels_searcher` swallows the
exception and returns None, the executor's ToolMessage content is the
string "None" (not an error description), and `flights_searcher`'s own
try-block likewise maps a raising search to None. -/
theorem c8_service_failure_becomes_none (w : World) (p : HotelsInput)
    (sperr : PyErr) (cid : String) (args : ArgMap) (sp : ArgMap) (e2 : PyErr)
    (h1 : w.serp (hotelsSearchParams w p) = Except.error sperr)
    (h2 : HotelsInput.validate args = Except.ok p)
    (h3 : w.serp sp = Except.error e2) :
    hotels_searcher w p = PyValue.none ∧
    pyStr (hotels_searcher w p) = "None" ∧
    runToolCall w ⟨cid, "hotels_searcher", args⟩
      = some (mkToolMessage cid "None") ∧
    flightsAfterTry w sp = PyValue.none := by
  have htry : hotelsTry w (hotelsSearchParams w p) = Except.error sperr := by
    simp [hotelsTry, h1, except_bind_error]
  have hnone : hotels_searcher w p = PyValue.none := by
    simp [hotels_searcher, htry]
  have key : runToolCall w ⟨cid, "hotels_searcher", args⟩
      = some (processTool w hotelsTool ⟨cid, "hotels_searcher", args⟩) := rfl
  refine ⟨hnone, by rw [hnone]; rfl, ?_, ?_⟩
  · rw [key]
    simp [processTool, hotelsTool, h2, Except.map, hnone, pyStr, pyRepr]
  · simp [flightsAfterTry, flightsTryExec, h3, except_bind_error]

/-- C8 witness: with an always-raising search, the hotels tool returns
None and the executor reports "None". -/
theorem c8_service_failure_becomes_none_witness :
    w0.serp (hotelsSearchParams w0 hotelsParsed0)
      = Except.error ⟨"RuntimeError", "network unreachable"⟩ ∧
    HotelsInput.validate [("q", PyValue.str "NYC"),
      ("check_in_date", PyValue.str "2025-01-01"),
      ("check_out_date", PyValue.str "2025-01-05")] = Except.ok hotelsParsed0 ∧
    w0.serp [] = Except.error ⟨"RuntimeError", "network unreachable"⟩ ∧
    (hotels_searcher w0 hotelsParsed0 = PyValue.none ∧
     pyStr (hotels_searcher w0 hotelsParsed0) = "None" ∧
     runToolCall w0 ⟨"call_8", "hotels_searcher", [("q", PyValue.str "NYC"),
       ("check_in_date", PyValue.str "2025-01-01"),
       ("check_out_date", PyValue.str "2025-01-05")]⟩
       = some (mkToolMessage "call_8" "None") ∧
     flightsAfterTry w0 [] = PyValue.none) :=
  ⟨rfl, rfl, rfl,
   c8_service_failure_becomes_none w0 hotelsParsed0
     ⟨"RuntimeError", "network unreachable"⟩ "call_8"
     [("q", PyValue.str "NYC"), ("check_in_date", PyValue.str "2025-01-01"),
      ("check_out_date", PyValue.str "2025-01-05")] []
     ⟨"RuntimeError", "network unreachable"⟩ rfl rfl rfl⟩

/-- C10: whenever the provider responds with a properties list, the
hotels tool returns exactly its first five entries — never more than
five. -/
theorem c10_hotels_at_most_five (w : World) (p : HotelsInput)
    (data : PyValue) (props : List PyValue)
    (h1 : w.serp (hotelsSearchParams w p) = Except.ok data)
    (h2 : pySubscript data "properties" = Except.ok (PyValue.list props)) :
    hotels_searcher w p = PyValue.list (props.take 5) ∧
    (props.take 5).length ≤ 5 := by
  have htry : hotelsTry w (hotelsSearchParams w p)
      = Except.ok (PyValue.list (props.take 5)) := by
    simp [hotelsTry, h1, h2, except_bind_ok, pySliceTake5]
  exact ⟨by simp [hotels_searcher, htry], props.length_take_le 5⟩

/-- A provider response with seven properties. -/
def hotelData7 : PyValue :=
  PyValue.dict [("properties", PyValue.list
    [PyValue.int 1, PyValue.int 2, PyValue.int 3, PyValue.int 4,
     PyValue.int 5, PyValue.int 6, PyValue.int 7])]

/-- A world whose search always succeeds with seven properties. -/
def wHotels7 : World := ⟨fun _ => Except.ok hotelData7, Option.none⟩

/-- C10 witness: seven provider properties are cut down to the first
five. -/
theorem c10_hotels_at_most_five_witness :
    wHotels7.serp (hotelsSearchParams wHotels7 hotelsParsed0)
      = Except.ok hotelData7 ∧
    pySubscript hotelData7 "properties" = Except.ok (PyValue.list
      [PyValue.int 1, PyValue.int 2, PyValue.int 3, PyValue.int 4,
       PyValue.int 5, PyValue.int 6, PyValue.int 7]) ∧
    (hotels_searcher wHotels7 hotelsParsed0 = PyValue.list
      ([PyValue.int 1, PyValue.int 2, PyValue.int 3, PyValue.int 4,
        PyValue.int 5, PyValue.int 6, PyValue.int 7].take 5) ∧
     ([PyValue.int 1, PyValue.int 2, PyValue.int 3, PyValue.int 4,
       PyValue.int 5, PyValue.int 6, PyValue.int 7].take 5 :
         List PyValue).length ≤ 5) :=
  ⟨rfl, rfl,
   c10_hotels_at_most_five wHotels7 hotelsParsed0 hotelData7
     [PyValue.int 1, PyValue.int 2, PyValue.int 3, PyValue.int 4,
      PyValue.int 5, PyValue.int 6, PyValue.int 7] rfl rfl⟩

/-- A candidate message id is fresh for a message list when it collides
with none of its entries (an absent id is always fresh: `add_messages`
assigns it a fresh UUID). -/
def idFresh (msgs : List Message) (i : Option String) : Prop :=
  ∀ m ∈ msgs, msgIdEq m.id i = false

theorem addMessages_singleton_fresh (s : List Message) (m : Message)
    (h : idFresh s m.id) : addMessages s [m] = s ++ [m] := by
  have hany : s.any (fun e => msgIdEq e.id m.id) = false := by
    rw [List.any_eq_false]
    intro e he
    simp [h e he]
  simp [addMessages, addOne, hany]

theorem addMessages_append_none (s new : List Message)
    (h : ∀ m ∈ new, m.id = Option.none) : addMessages s new = s ++ new := by
  induction new generalizing s with
  | nil => simp [addMessages]
  | cons m tl ih =>
    have hm : m.id = Option.none := h m (by simp)
    have hany : s.any (fun e => msgIdEq e.id m.id) = false := by
      rw [List.any_eq_false]
      intro e he
      simp [hm, msgIdEq_none_right]
    have hstep : addMessages s (m :: tl) = addMessages (s ++ [m]) tl := by
      simp [addMessages, addOne, hany]
    rw [hstep, ih (s ++ [m]) (fun x hx => h x (by simp [hx]))]
    simp

theorem addOne_mem (s : List Message) (a m : Message) (h : m ∈ addOne s a) :
    m ∈ s ∨ m = a := by
  simp only [addOne] at h
  split at h
  · obtain ⟨e, he, heq⟩ := List.mem_map.mp h
    by_cases h2 : msgIdEq e.id a.id = true
    · right
      rw [if_pos h2] at heq
      exact heq.symm
    · left
      rw [if_neg h2] at heq
      rw [← heq]
      exact he
  · rcases List.mem_append.mp h with h | h
    · exact Or.inl h
    · exact Or.inr (by simpa using h)

theorem addMessages_mem (new : List Message) :
    ∀ s m, m ∈ addMessages s new → m ∈ s ∨ m ∈ new := by
  induction new with
  | nil =>
    intro s m h
    exact Or.inl (by simpa [addMessages] using h)
  | cons a tl ih =>
    intro s m h
    have h' : m ∈ addMessages (addOne s a) tl := by
      simpa [addMessages] using h
    rcases ih (addOne s a) m h' with h1 | h1
    · rcases addOne_mem s a m h1 with h2 | h2
      · exact Or.inl h2
      · exact Or.inr (by simp [h2])
    · exact Or.inr (by simp [h1])

/-- Whether a message is a SystemMessage. -/
def isSystemB (m : Message) : Bool :=
  match m.body with
  | MsgBody.system _ => true
  | _ => false

theorem runToolCall_ingredients (w : World) (tc : ToolCall) (m : Message)
    (h : runToolCall w tc = some m) :
    m.id = Option.none ∧ isSystemB m = false := by
  rw [runToolCall] at h
  cases hf : agentTools.find? (fun t => t.name == tc.name) with
  | none => rw [hf] at h; exact absurd h (by simp)
  | some t =>
    rw [hf] at h
    obtain ⟨c, hc⟩ := processTool_shape w t tc
    have h2 : some (processTool w t tc) = some m := h
    have h3 : processTool w t tc = m := Option.some.inj h2
    rw [← h3, hc]
    exact ⟨rfl, rfl⟩

theorem tool_executor_ids_none (w : World) (msgs : List Message) :
    ∀ m ∈ tool_executor w msgs, m.id = Option.none := by
  intro m hm
  rw [tool_executor] at hm
  cases hl : msgs.getLast? with
  | none => rw [hl] at hm; exact absurd hm (by simp)
  | some last =>
    rw [hl] at hm
    obtain ⟨tc, _, htc⟩ := List.mem_filterMap.mp hm
    exact (runToolCall_ingredients w tc m htc).1

theorem tool_executor_not_system (w : World) (msgs : List Message) :
    ∀ m ∈ tool_executor w msgs, isSystemB m = false := by
  intro m hm
  rw [tool_executor] at hm
  cases hl : msgs.getLast? with
  | none => rw [hl] at hm; exact absurd hm (by simp)
  | some last =>
    rw [hl] at hm
    obtain ⟨tc, _, htc⟩ := List.mem_filterMap.mp hm
    exact (runToolCall_ingredients w tc m htc).2

theorem addMessages_no_system (s new : List Message)
    (hs : ∀ m ∈ s, isSystemB m = false) (hn : ∀ m ∈ new, isSystemB m = false) :
    ∀ m ∈ addMessages s new, isSystemB m = false := by
  intro m hm
  rcases addMessages_mem new s m hm with h | h
  · exact hs m h
  · exact hn m h

/-- C6: when the LLM replies with zero tool calls, the run ends after a
single Thinking step and the final state is the caller's history plus
that one assistant message, untouched. -/
theorem c6_zero_toolcalls_terminates (llm : List Message → LLMReply)
    (w : World) (sys : String) (fuel : Nat) (history : List Message)
    (hfresh : idFresh history (llm (systemMessage sys :: history)).id)
    (hcalls : (llm (systemMessage sys :: history)).tool_calls = []) :
    (runAgent llm w sys (fuel + 1) history).final
      = history ++ [aiOf (llm (systemMessage sys :: history))] ∧
    (runAgent llm w sys (fuel + 1) history).llmInputs
      = [systemMessage sys :: history] := by
  have hmerge : addMessages history (handle_conversation_flow llm sys history)
      = history ++ [aiOf (llm (systemMessage sys :: history))] := by
    rw [handle_conversation_flow]
    exact addMessages_singleton_fresh _ _ hfresh
  have hlast : (history ++ [aiOf (llm (systemMessage sys :: history))]).getLast?
      = some (aiOf (llm (systemMessage sys :: history))) := by simp
  have hact : shouldAct (history ++ [aiOf (llm (systemMessage sys :: history))])
      = false := by
    rw [shouldAct, hlast]
    simp [toolCallsOf, aiOf, hcalls]
  constructor <;> simp [runAgent, hmerge, hact]

/-- An LLM stub that always answers with plain text and no tool calls. -/
def llmPlain : List Message → LLMReply :=
  fun _ => ⟨Option.none, "Paris in spring.", []⟩

/-- C6 witness: a concrete single-Thinking-step run. -/
theorem c6_zero_toolcalls_terminates_witness :
    (runAgent llmPlain w0 "be helpful" 1 [humanMessage "hi"]).final
      = [humanMessage "hi"]
          ++ [aiOf (llmPlain (systemMessage "be helpful" :: [humanMessage "hi"]))] ∧
    (runAgent llmPlain w0 "be helpful" 1 [humanMessage "hi"]).llmInputs
      = [systemMessage "be helpful" :: [humanMessage "hi"]] :=
  c6_zero_toolcalls_terminates llmPlain w0 "be helpful" 0 [humanMessage "hi"]
    (fun m _ => msgIdEq_none_right m.id) rfl

/-- C4: starting from a history with no system message, every Thinking
step's model input carries the injected directive as its head and exactly
one system message in total, while the stored state never contains any
system message. -/
theorem c4_system_directive_once (llm : List Message → LLMReply) (w : World)
    (sys : String) (fuel : Nat) (history : List Message)
    (h : ∀ m ∈ history, isSystemB m = false) :
    (∀ input ∈ (runAgent llm w sys fuel history).llmInputs,
      input.head? = some (systemMessage sys) ∧
      (input.filter isSystemB).length = 1) ∧
    (∀ m ∈ (runAgent llm w sys fuel history).final, isSystemB m = false) := by
  induction fuel generalizing history with
  | zero =>
    refine ⟨?_, ?_⟩
    · intro input hin
      simp [runAgent] at hin
    · intro m hm
      simp [runAgent] at hm
      exact h m hm
  | succ n ih =>
    have hmsgs1 : ∀ m ∈ addMessages history (handle_conversation_flow llm sys history),
        isSystemB m = false := by
      apply addMessages_no_system _ _ h
      intro m hm
      simp [handle_conversation_flow] at hm
      rw [hm]
      rfl
    have hinputProps : (systemMessage sys :: history).head? = some (systemMessage sys) ∧
        ((systemMessage sys :: history).filter isSystemB).length = 1 := by
      refine ⟨rfl, ?_⟩
      have hf : history.filter isSystemB = [] :=
        List.filter_eq_nil_iff.mpr (by intro a ha; simp [h a ha])
      simp [List.filter_cons, hf, isSystemB, systemMessage]
    by_cases hact : shouldAct (addMessages history (handle_conversation_flow llm sys history)) = true
    · have hmsgs2 : ∀ m ∈ addMessages
          (addMessages history (handle_conversation_flow llm sys history))
          (tool_executor w (addMessages history (handle_conversation_flow llm sys history))),
          isSystemB m = false :=
        addMessages_no_system _ _ hmsgs1 (tool_executor_not_system w _)
      obtain ⟨ihInputs, ihFinal⟩ := ih _ hmsgs2
      refine ⟨?_, ?_⟩
      · intro input hin
        simp only [runAgent, hact, if_true] at hin
        rcases List.mem_cons.mp hin with rfl | hin
        · exact hinputProps
        · exact ihInputs input hin
      · intro m hm
        simp only [runAgent, hact, if_true] at hm
        exact ihFinal m hm
    · refine ⟨?_, ?_⟩
      · intro input hin
        simp only [runAgent, hact, if_false, Bool.not_eq_true] at hin
        rcases List.mem_singleton.mp hin with rfl
        exact hinputProps
      · intro m hm
        simp only [runAgent, hact, if_false, Bool.not_eq_true] at hm
        exact hmsgs1 m hm

/-- C4 witness: a concrete two-iteration run from a system-free history. -/
theorem c4_system_directive_once_witness :
    (∀ input ∈ (runAgent llmPlain w0 "be helpful" 2 [humanMessage "hi"]).llmInputs,
      input.head? = some (systemMessage "be helpful") ∧
      (input.filter isSystemB).length = 1) ∧
    (∀ m ∈ (runAgent llmPlain w0 "be helpful" 2 [humanMessage "hi"]).final,
      isSystemB m = false) :=
  c4_system_directive_once llmPlain w0 "be helpful" 2 [humanMessage "hi"]
    (by intro m hm; rw [List.mem_singleton.mp hm]; rfl)

/-- C9: under the freshness the LLM's message ids enjoy in practice, one
run's state snapshots form an append-only chain — every node merge only
appends, never reorders, deletes or overwrites — and the final state
extends the caller's history. -/
theorem c9_state_append_only (llm : List Message → LLMReply) (w : World)
    (sys : String) (fuel : Nat) (history : List Message)
    (hl : ∀ msgs, idFresh msgs (llm (systemMessage sys :: msgs)).id) :
    List.Chain' (fun a b => ∃ t, b = a ++ t)
      (history :: (runAgent llm w sys fuel history).states) ∧
    ∃ t, (runAgent llm w sys fuel history).final = history ++ t := by
  induction fuel generalizing history with
  | zero =>
    refine ⟨?_, [], ?_⟩ <;> simp [runAgent]
  | succ n ih =>
    have hmerge : addMessages history (handle_conversation_flow llm sys history)
        = history ++ [aiOf (llm (systemMessage sys :: history))] := by
      rw [handle_conversation_flow]
      exact addMessages_singleton_fresh _ _ (hl history)
    by_cases hact : shouldAct (addMessages history (handle_conversation_flow llm sys history)) = true
    · have hmerge2 : addMessages
          (addMessages history (handle_conversation_flow llm sys history))
          (tool_executor w (addMessages history (handle_conversation_flow llm sys history)))
          = addMessages history (handle_conversation_flow llm sys history)
            ++ tool_executor w (addMessages history (handle_conversation_flow llm sys history)) :=
        addMessages_append_none _ _ (tool_executor_ids_none w _)
      obtain ⟨ihChain, t, ihFinal⟩ := ih (addMessages
          (addMessages history (handle_conversation_flow llm sys history))
          (tool_executor w (addMessages history (handle_conversation_flow llm sys history))))
      refine ⟨?_, ?_⟩
      · simp only [runAgent, hact, if_true]
        refine List.chain'_cons.mpr ⟨⟨[aiOf (llm (systemMessage sys :: history))], hmerge⟩,
          List.chain'_cons.mpr ⟨?_, ihChain⟩⟩
        exact ⟨tool_executor w (addMessages history (handle_conversation_flow llm sys history)),
          hmerge2⟩
      · simp only [runAgent, hact, if_true]
        refine ⟨[aiOf (llm (systemMessage sys :: history))]
            ++ tool_executor w (addMessages history (handle_conversation_flow llm sys history))
            ++ t, ?_⟩
        rw [ihFinal, hmerge2, hmerge]
        simp [List.append_assoc]
    · refine ⟨?_, ?_⟩
      · simp only [runAgent, hact, if_false, Bool.not_eq_true]
        exact List.chain'_cons.mpr ⟨⟨[aiOf (llm (systemMessage sys :: history))], hmerge⟩,
          List.chain'_singleton _⟩
      · simp only [runAgent, hact, if_false, Bool.not_eq_true]
        exact ⟨[aiOf (llm (systemMessage sys :: history))], hmerge⟩

/-- C9 witness: a concrete run's snapshots chain by appends. -/
theorem c9_state_append_only_witness :
    List.Chain' (fun a b => ∃ t, b = a ++ t)
      ([humanMessage "hi"]
        :: (runAgent llmPlain w0 "be helpful" 2 [humanMessage "hi"]).states) ∧
    ∃ t, (runAgent llmPlain w0 "be helpful" 2 [humanMessage "hi"]).final
      = [humanMessage "hi"] ++ t :=
  c9_state_append_only llmPlain w0 "be helpful" 2 [humanMessage "hi"]
    (fun _ m _ => msgIdEq_none_right m.id)
